import Mathlib

/-!
Verification of the pipeline aggregation and forecasting engine of a
Django CRM. The definitions below are shallow embeddings of the Python
source: `Deal.update_stage` and `SalesForecast.generate_forecast` from
sales/models.py, `PipelineManager.calculate_conversion_rates`,
`PipelineManager.calculate_velocity_metrics` (its stage-times part),
`PipelineManager.get_deal_recommendations` from sales/pipeline_logic.py,
`DataProcessor.get_dashboard_metrics` and `DataProcessor.get_forecast_data`
from analytics/data_processor.py, and `calculate_deal_metrics` from
core/utils.py. Monetary values and rates are modelled as rationals,
datetimes as integer day counts (or calendar dates where the source
computes calendar boundaries), and Python dicts keyed by literal strings
as if-chains. Operations that can raise in Python return Option.
-/

namespace CRM

/-! ## Deal state and the stage-transition operation (sales/models.py) -/

/-- The mutable fields of a `Deal` row touched by `Deal.update_stage`.
Timestamps are integer day counts; `updated_date` is refreshed by
`save()` because the model field has `auto_now=True`. -/
structure DealState where
  stage : String
  probability : Int
  status : String
  created_date : Int
  updated_date : Int
  deriving Repr, DecidableEq

/-- One `PipelineHistory` row (the StageTransition log entry). -/
structure HistRec where
  deal : Nat
  from_stage : String
  to_stage : String
  changed_date : Int
  deriving Repr, DecidableEq

/-- The `stage_probabilities` dict lookup in `Deal.update_stage`:
`stage_probabilities.get(new_stage, self.probability)` where the dict maps
Lead 10, Qualified 25, Proposal 50, Negotiation 75, Won 100, Lost 0 and
On Hold to the current probability. -/
def stage_probabilities_get (cur : Int) (new_stage : String) : Int :=
  if new_stage = "Lead" then 10
  else if new_stage = "Qualified" then 25
  else if new_stage = "Proposal" then 50
  else if new_stage = "Negotiation" then 75
  else if new_stage = "Won" then 100
  else if new_stage = "Lost" then 0
  else if new_stage = "On Hold" then cur
  else cur

/-- The status assignment in `Deal.update_stage`. -/
def status_for_stage (new_stage : String) : String :=
  if new_stage = "Won" then "Won"
  else if new_stage = "Lost" then "Lost"
  else if new_stage = "On Hold" then "On Hold"
  else "Active"

/-- `Deal.update_stage(new_stage)` (sales/models.py lines 127-162): records
the old stage, overwrites stage, probability and status, saves (which
touches `updated_date`), and unconditionally creates one PipelineHistory
row with `from_stage` equal to the prior stage. The deal id of the new
history row is threaded in for bookkeeping. -/
def update_stage (d : DealState) (dealId : Nat) (new_stage : String)
    (now : Int) (hist : List HistRec) : DealState × List HistRec :=
  let old_stage := d.stage
  let d1 : DealState :=
    { d with
      stage := new_stage
      probability := stage_probabilities_get d.probability new_stage
      status := status_for_stage new_stage
      updated_date := now }
  (d1, hist ++ [⟨dealId, old_stage, new_stage, now⟩])

/-- The default-probability table exactly as the claims list it
(Lead 10, Qualified 25, Proposal 50, Negotiation 75, Won 100, Lost 0);
On Hold deliberately absent. -/
def claimedStageDefault (s : String) : Option Int :=
  if s = "Lead" then some 10
  else if s = "Qualified" then some 25
  else if s = "Proposal" then some 50
  else if s = "Negotiation" then some 75
  else if s = "Won" then some 100
  else if s = "Lost" then some 0
  else none

/-- An arbitrary concrete deal used in counterexamples and witnesses. -/
def exDeal : DealState :=
  { stage := "Lead", probability := 10, status := "Active"
    created_date := 0, updated_date := 0 }

/-! ## Theorems about the stage-transition operation -/

/-- Claim C2: for every deal and every new stage, the stage-transition
operation sets the stage to the new stage, sets the probability to the
listed stage default (Lead 10, Qualified 25, Proposal 50, Negotiation 75,
Won 100, Lost 0; the operation takes no override argument, so the default
always applies), sets the status by the mapping Won to Won, Lost to Lost,
On Hold to On Hold and anything else to Active, appends exactly one new
StageTransition whose from-stage is the prior stage, and touches
`updated_date`. -/
theorem update_stage_transition_spec
    (d : DealState) (dealId : Nat) (ns : String) (now : Int)
    (hist : List HistRec) (p : Int)
    (hp : claimedStageDefault ns = some p) :
    (update_stage d dealId ns now hist).1.stage = ns ∧
    (update_stage d dealId ns now hist).1.probability = p ∧
    (update_stage d dealId ns now hist).1.status =
      (if ns = "Won" then "Won" else if ns = "Lost" then "Lost"
       else if ns = "On Hold" then "On Hold" else "Active") ∧
    (update_stage d dealId ns now hist).2 =
      hist ++ [⟨dealId, d.stage, ns, now⟩] ∧
    (update_stage d dealId ns now hist).1.updated_date = now := by
  unfold claimedStageDefault at hp
  unfold update_stage status_for_stage stage_probabilities_get
  split_ifs at hp <;> simp_all

/-- Witness for C2 at a concrete input: moving the example deal to
Qualified yields probability 25, status Active and one appended
transition from Lead. -/
theorem update_stage_transition_spec_witness :
    (update_stage exDeal 1 "Qualified" 3 []).1.stage = "Qualified" ∧
    (update_stage exDeal 1 "Qualified" 3 []).1.probability = 25 ∧
    (update_stage exDeal 1 "Qualified" 3 []).1.status = "Active" ∧
    (update_stage exDeal 1 "Qualified" 3 []).2 =
      [⟨1, "Lead", "Qualified", 3⟩] ∧
    (update_stage exDeal 1 "Qualified" 3 []).1.updated_date = 3 := by
  have h := update_stage_transition_spec exDeal 1 "Qualified" 3 [] 25 (by decide)
  refine ⟨h.1, h.2.1, ?_, ?_, h.2.2.2.2⟩
  · exact h.2.2.1.trans (by decide)
  · exact h.2.2.2.1.trans (by decide)

/-- Claim C3 counterexample: moving the example deal to its own current
stage (Lead to Lead) still creates a new StageTransition and changes
`updated_date`, so the operation is not idempotent in that case. -/
theorem move_same_stage_not_idempotent_cex :
    (update_stage exDeal 1 "Lead" 5 []).2.length = 1 ∧
    (update_stage exDeal 1 "Lead" 5 []).1.updated_date ≠
      exDeal.updated_date := by
  decide

/-- Claim C3 as amended: `update_stage` performs no same-stage check, so
moving a deal to its current stage still appends exactly one
StageTransition, whose from-stage and to-stage both equal the current
stage, and sets `updated_date` to the current time. -/
theorem move_same_stage_appends_transition
    (d : DealState) (dealId : Nat) (now : Int) (hist : List HistRec) :
    (update_stage d dealId d.stage now hist).2 =
      hist ++ [⟨dealId, d.stage, d.stage, now⟩] ∧
    (update_stage d dealId d.stage now hist).1.updated_date = now := by
  exact ⟨rfl, rfl⟩

/-- Claim C10: moving a deal to On Hold keeps its probability unchanged
(the stage-default table maps On Hold to the current probability) while
setting the status to On Hold, and every other known target stage
overwrites the probability with that stage fixed default. -/
theorem on_hold_preserves_probability
    (d : DealState) (dealId : Nat) (now : Int) (hist : List HistRec) :
    (update_stage d dealId "On Hold" now hist).1.probability =
      d.probability ∧
    (update_stage d dealId "On Hold" now hist).1.status = "On Hold" ∧
    ∀ ns p, claimedStageDefault ns = some p →
      (update_stage d dealId ns now hist).1.probability = p := by
  refine ⟨rfl, rfl, ?_⟩
  intro ns p hp
  unfold claimedStageDefault at hp
  unfold update_stage stage_probabilities_get
  split_ifs at hp <;> simp_all

/-- Witness for C10 at a concrete input: putting the example deal
(probability 10) On Hold keeps probability 10, and moving it to Won sets
probability 100. -/
theorem on_hold_preserves_probability_witness :
    (update_stage exDeal 2 "On Hold" 7 []).1.probability = 10 ∧
    (update_stage exDeal 2 "On Hold" 7 []).1.status = "On Hold" ∧
    (update_stage exDeal 2 "Won" 7 []).1.probability = 100 := by
  have h := on_hold_preserves_probability exDeal 2 7 []
  exact ⟨h.1.trans (by decide), h.2.1, h.2.2 "Won" 100 (by decide)⟩

/-! ## Weighted value (sales/models.py line 113, data_processor.py line 247) -/

/-- A deal as the relational model sees it (decimal value, integer
probability, optional expected close date added later for forecasts). -/
structure Deal where
  value : ℚ
  probability : Int
  status : String
  stage : String
  deriving Repr, DecidableEq

/-- The derived property `Deal.weighted_value`:
`self.value * (self.probability / 100)`. It is a property, never a stored
column. -/
def Deal.weighted_value (d : Deal) : ℚ :=
  d.value * ((d.probability : ℚ) / 100)

/-- A deal record as the Firebase path sees it (plain dict fields;
`expected_close` is an ISO date string, empty when absent). -/
structure FbDeal where
  value : ℚ
  probability : ℚ
  status : String
  stage : String
  expected_close : String
  deriving Repr, DecidableEq

/-- The weighted-value expression of the Firebase analytics path
(data_processor.py line 247 and 487):
`d.get(value, 0) * d.get(probability, 0) / 100`. -/
def FbDeal.weighted_value (d : FbDeal) : ℚ :=
  d.value * d.probability / 100

/-- Example deal for the weighted-value witness (the spec scenario:
value 100000, probability 75). -/
def exDealW : Deal :=
  { value := 100000, probability := 75, status := "Active"
    stage := "Negotiation" }

/-- Example Firebase deal record. -/
def exFbDealW : FbDeal :=
  { value := 100000, probability := 75, status := "Active"
    stage := "Negotiation", expected_close := "" }

/-- Claim C1: for every deal with probability between 0 and 100, the
derived weighted value equals value * probability / 100 exactly, on both
the relational property and the Firebase analytics expression; it is a
derived quantity, not a stored field. -/
theorem weighted_value_spec (d : Deal) (fd : FbDeal)
    (h0 : 0 ≤ d.probability) (h100 : d.probability ≤ 100) :
    d.weighted_value = d.value * (d.probability : ℚ) / 100 ∧
    fd.weighted_value = fd.value * fd.probability / 100 := by
  constructor
  · rw [Deal.weighted_value, mul_div_assoc]
  · rfl

/-- Witness for C1 at the spec scenario: value 100000 and probability 75
give weighted value 75000. -/
theorem weighted_value_spec_witness :
    exDealW.weighted_value = 75000 := by
  have h := weighted_value_spec exDealW exFbDealW (by decide) (by decide)
  rw [h.1]
  norm_num [exDealW]

/-! ## Conversion rates (sales/pipeline_logic.py lines 52-85) -/

/-- The linear funnel list used by `calculate_conversion_rates`. -/
def funnelStages : List String := ["Lead", "Qualified", "Proposal", "Negotiation"]

/-- `PipelineManager.calculate_conversion_rates`: for each consecutive
funnel pair, the share of transitions out of the stage that went to the
next stage, times 100 (0 when the stage has no outgoing transitions),
plus the overall win rate over closed deals. Keys are the Python
f-string keys built with an underscore separator. -/
def calculate_conversion_rates (hist : List HistRec) (deals : List Deal) :
    List (String × ℚ) :=
  let pairs := funnelStages.zip funnelStages.tail
  let rates := pairs.map (fun sp =>
    let moved := (hist.filter
      (fun h => h.from_stage == sp.1 && h.to_stage == sp.2)).length
    let total := (hist.filter (fun h => h.from_stage == sp.1)).length
    (sp.1 ++ "_to_" ++ sp.2,
      if total > 0 then ((moved : ℚ) / (total : ℚ)) * 100 else 0))
  let total_closed := (deals.filter
    (fun d => d.status == "Won" || d.status == "Lost")).length
  let total_won := (deals.filter (fun d => d.status == "Won")).length
  rates ++ [("win_rate",
    if total_closed > 0
    then ((total_won : ℚ) / (total_closed : ℚ)) * 100 else 0)]

/-- The synthetic transition log of the claim: three Lead-to-Qualified
transitions and one Lead-to-Lost transition. -/
def exLogConv : List HistRec :=
  [⟨1, "Lead", "Qualified", 1⟩, ⟨2, "Lead", "Qualified", 2⟩,
   ⟨3, "Lead", "Qualified", 3⟩, ⟨4, "Lead", "Lost", 4⟩]

/-- Claim C4 counterexample: on the log with three Lead-to-Qualified and
one Lead-to-Lost transition, the conversion-rate output has no
Lead-to-Lost entry at all, so the result for Lead is not the claimed map
with both Qualified 75.0 and Lost 25.0. -/
theorem conversion_rates_missing_pair_cex :
    (calculate_conversion_rates exLogConv []).lookup "Lead_to_Lost" =
      none := by
  decide

/-- Claim C4 as amended: conversion rates are computed only for the
consecutive funnel pairs Lead-Qualified, Qualified-Proposal and
Proposal-Negotiation (each as transitions from the stage to the next
stage over all transitions out of the stage, times 100, and 0 when the
stage has no outgoing transitions), plus an overall win rate; on the
example log the Lead-to-Qualified rate is 75 and non-adjacent pairs such
as Lead-to-Lost are absent. -/
theorem conversion_rates_adjacent_pairs :
    (calculate_conversion_rates exLogConv []).lookup "Lead_to_Qualified" =
      some 75 ∧
    (calculate_conversion_rates exLogConv []).map Prod.fst =
      ["Lead_to_Qualified", "Qualified_to_Proposal",
       "Proposal_to_Negotiation", "win_rate"] ∧
    (calculate_conversion_rates exLogConv []).lookup
      "Qualified_to_Proposal" = some 0 := by
  refine ⟨?_, by decide, by decide⟩
  show some ((3 : ℚ) / 4 * 100) = some 75
  norm_num

/-! ## Velocity: average time in stage (sales/pipeline_logic.py 108-128) -/

/-- All pipeline stages in the order of `get_pipeline_stages`. -/
def allStages : List String :=
  ["Lead", "Qualified", "Proposal", "Negotiation", "Won", "Lost", "On Hold"]

/-- `queryset.first()` under the `PipelineHistory` default ordering
`-changed_date`: the row with the greatest `changed_date` (leftmost on a
tie, the tie order being unspecified by the database). -/
def histFirst (l : List HistRec) : Option HistRec :=
  l.foldl (fun acc h =>
    match acc with
    | none => some h
    | some b => if b.changed_date < h.changed_date then some h else some b)
    none

/-- The `stage_times` computation of
`PipelineManager.calculate_velocity_metrics`: for each stage, every
history row leaving the stage is paired with
`PipelineHistory.objects.filter(deal=..., to_stage=stage).first()` - the
most recent entry of that deal into the stage with no constraint that it
precede the leaving row - and the day differences are averaged; stages
with no matched pairs are omitted from the map. -/
def stage_times (log : List HistRec) : List (String × ℚ) :=
  allStages.filterMap (fun s =>
    let hs := log.filter (fun h => h.from_stage == s)
    let times : List Int := hs.filterMap (fun h =>
      (histFirst (log.filter
        (fun p => p.deal == h.deal && p.to_stage == s))).map
        (fun prev => h.changed_date - prev.changed_date))
    if times.length > 0
    then some (s, (times.sum : ℚ) / (times.length : ℚ))
    else none)

/-- Modelled from the claim wording for comparison: pair each transition
leaving a stage with the most recent prior transition of the same deal
entering that stage with a strictly earlier timestamp, exclude unmatched
leavings, report average 0 (and sample size 0) when the sample is empty,
for every stage. -/
def specVelocity (log : List HistRec) : List (String × ℚ × Nat) :=
  allStages.map (fun s =>
    let hs := log.filter (fun h => h.from_stage == s)
    let times : List Int := hs.filterMap (fun h =>
      (histFirst (log.filter (fun p =>
        p.deal == h.deal && p.to_stage == s &&
        decide (p.changed_date < h.changed_date)))).map
        (fun prev => h.changed_date - prev.changed_date))
    (s,
      if times.length > 0
      then (times.sum : ℚ) / (times.length : ℚ) else 0,
      times.length))

/-- A log where deal 1 leaves Lead at day 5 and re-enters Lead at day 10:
the code pairs the day-5 leaving with the later day-10 entry. -/
def exLogVel : List HistRec :=
  [⟨1, "Lead", "Qualified", 5⟩, ⟨1, "Qualified", "Lead", 10⟩]

/-- Claim C5 counterexample: on a log where deal 1 leaves Lead at day 5
and only re-enters Lead at day 10, the code reports an average of -5 days
for Lead (it pairs the leaving with the later entry), while the claimed
computation - which requires the entering transition to have an earlier
timestamp - has an empty sample for Lead and reports 0. -/
theorem velocity_pairing_cex :
    (stage_times exLogVel).lookup "Lead" = some (-5) ∧
    (specVelocity exLogVel).lookup "Lead" = some ((0 : ℚ), (0 : Nat)) := by
  have h1 : (stage_times exLogVel).lookup "Lead" =
      some (((-5 : Int) : ℚ) / ((1 : Nat) : ℚ)) := rfl
  have h2 : (specVelocity exLogVel).lookup "Lead" =
      some ((0 : ℚ), (0 : Nat)) := rfl
  refine ⟨?_, h2⟩
  rw [h1]
  norm_num

/-- Claim C5 as amended: each transition leaving a stage is paired with
the most recent transition of the same deal entering that stage
regardless of timestamp order (so durations can be negative), leavings
with no entering record are excluded, and stages with no matched pairs
are omitted from the result instead of being reported with average 0
(the data_processor variant is a stub reporting 0 for every stage). On
the example log the result is exactly Lead -5 and Qualified 5. -/
theorem velocity_code_behavior :
    stage_times exLogVel = [("Lead", -5), ("Qualified", 5)] := by
  have h : stage_times exLogVel =
      [("Lead", ((-5 : Int) : ℚ) / ((1 : Nat) : ℚ)),
       ("Qualified", ((5 : Int) : ℚ) / ((1 : Nat) : ℚ))] := rfl
  rw [h]
  norm_num

/-! ## Calendar dates (Python datetime.date and timedelta arithmetic) -/

/-- A calendar date. Python date objects are always valid; validity is
carried as a hypothesis where proofs need it. -/
structure PyDate where
  y : Int
  m : Int
  d : Int
  deriving Repr, DecidableEq

/-- Date comparison, lexicographic as for Python date objects. -/
def PyDate.le (a b : PyDate) : Prop :=
  a.y < b.y ∨ (a.y = b.y ∧ (a.m < b.m ∨ (a.m = b.m ∧ a.d ≤ b.d)))

/-- Strict date comparison. -/
def PyDate.lt (a b : PyDate) : Prop :=
  a.y < b.y ∨ (a.y = b.y ∧ (a.m < b.m ∨ (a.m = b.m ∧ a.d < b.d)))

instance (a b : PyDate) : Decidable (PyDate.le a b) := by
  unfold PyDate.le; infer_instance

instance (a b : PyDate) : Decidable (PyDate.lt a b) := by
  unfold PyDate.lt; infer_instance

/-- Gregorian leap year. -/
def isLeap (y : Int) : Bool :=
  (y % 4 == 0 && y % 100 != 0) || y % 400 == 0

/-- Days in a month. -/
def daysInMonth (y m : Int) : Int :=
  if m = 2 then (if isLeap y then 29 else 28)
  else if m = 4 ∨ m = 6 ∨ m = 9 ∨ m = 11 then 30
  else 31

/-- The day after a given date. -/
def nextDay (dt : PyDate) : PyDate :=
  if dt.d < daysInMonth dt.y dt.m then ⟨dt.y, dt.m, dt.d + 1⟩
  else if dt.m < 12 then ⟨dt.y, dt.m + 1, 1⟩
  else ⟨dt.y + 1, 1, 1⟩

/-- `date + timedelta(days=n)`. -/
def addDays (dt : PyDate) : Nat → PyDate
  | 0 => dt
  | n + 1 => nextDay (addDays dt n)

/-- Decimal digits of a non-negative integer (for strftime-style keys). -/
def natDigits (n : Nat) : String :=
  (Nat.toDigits 10 n).asString

/-- `strftime(%Y-%m)`: four-digit year, dash, zero-padded month. -/
def monthKey (dt : PyDate) : String :=
  natDigits dt.y.toNat ++ "-" ++
    (if dt.m < 10 then "0" ++ natDigits dt.m.toNat else natDigits dt.m.toNat)

/-- The quarter of a month, `((month - 1) // 3) + 1`. -/
def quarterOf (m : Int) : Int := (m - 1) / 3 + 1

/-- The quarterly period key: year, the letter Q with a dash, quarter. -/
def quarterKey (dt : PyDate) : String :=
  natDigits dt.y.toNat ++ "-Q" ++ natDigits (quarterOf dt.m).toNat

/-- The yearly period key `str(year)`. -/
def yearKey (dt : PyDate) : String := natDigits dt.y.toNat

/-! ## Structural string helpers (kernel-computable versions of take,
startsWith, split and int parsing, with Python semantics) -/

/-- `s[:n]` on strings. -/
def pyTake (s : String) (n : Nat) : String := String.mk (s.data.take n)

/-- `s.startswith(p)`. -/
def pyStartsWith (s p : String) : Bool := p.data.isPrefixOf s.data

/-- Split on a non-empty separator, fuelled for structural recursion. -/
def listSplitOn (sep : List Char) : Nat → List Char → List Char →
    List (List Char)
  | 0, _, acc => [acc.reverse]
  | _ + 1, [], acc => [acc.reverse]
  | fuel + 1, c :: rest, acc =>
    if sep.isPrefixOf (c :: rest) then
      acc.reverse ::
        listSplitOn sep fuel ((c :: rest).drop sep.length) []
    else
      listSplitOn sep fuel rest (c :: acc)

/-- `s.split(sep)` for a non-empty separator. -/
def pySplitOn (s sep : String) : List String :=
  (listSplitOn sep.data (s.data.length + 1) s.data []).map String.mk

/-- The numeric value of a decimal digit character. -/
def digitVal (c : Char) : Option Nat :=
  if '0' ≤ c ∧ c ≤ '9' then some (c.toNat - '0'.toNat) else none

/-- Accumulate decimal digits. -/
def charsToNatAux : List Char → Nat → Option Nat
  | [], acc => some acc
  | c :: r, acc =>
    match digitVal c with
    | some d => charsToNatAux r (acc * 10 + d)
    | none => none

/-- `int(s)` on a plain digit string (none on anything else, modelling
the ValueError). -/
def pyToNat (s : String) : Option Nat :=
  match s.data with
  | [] => none
  | cs => charsToNatAux cs 0

/-! ## Firebase forecast (analytics/data_processor.py get_forecast_data) -/

/-- One forecast entry produced by `get_forecast_data`. -/
structure Forecast where
  period : String
  total_pipeline : ℚ
  weighted_pipeline : ℚ
  expected_revenue : ℚ
  deriving Repr, DecidableEq

/-- The period key for forecast index `i`: now plus 30, 90 or 365 days
times the index, formatted per period type (data_processor.py 466-476). -/
def periodKeyFor (period_type : String) (now : PyDate) (i : Nat) : String :=
  if period_type = "monthly" then monthKey (addDays now (30 * i))
  else if period_type = "quarterly" then quarterKey (addDays now (90 * i))
  else yearKey (addDays now (365 * i))

/-- The deal-selection loop of `get_forecast_data` (lines 479-483): keep
deals whose `expected_close` string is non-empty and starts with the
first seven characters of the period key. -/
def periodSelected (active : List FbDeal) (key : String) : List FbDeal :=
  active.filter (fun d =>
    d.expected_close ≠ "" && pyStartsWith d.expected_close (pyTake key 7))

/-- `DataProcessor.get_forecast_data(periods, period_type)`: filters the
snapshot to Active deals, then for each period index computes the key,
selects deals by string-prefix match on `expected_close`, and sums value,
value times probability over 100, and value over deals with probability
at least 70. -/
def get_forecast_data (deals : List FbDeal) (now : PyDate)
    (periods : Nat) (period_type : String) : List Forecast :=
  let active := deals.filter (fun d => d.status == "Active")
  (List.range periods).map (fun i =>
    let key := periodKeyFor period_type now i
    let pds := periodSelected active key
    { period := key
      total_pipeline := (pds.map (fun d => d.value)).sum
      weighted_pipeline :=
        (pds.map (fun d => d.value * d.probability / 100)).sum
      expected_revenue :=
        ((pds.filter (fun d => d.probability ≥ 70)).map
          (fun d => d.value)).sum })

/-! ## Relational forecast (sales/models.py SalesForecast.generate_forecast) -/

/-- A relational deal together with its optional expected close date. -/
structure OrmDeal where
  value : ℚ
  probability : Int
  status : String
  expected_close : Option PyDate
  deriving Repr, DecidableEq

/-- The monthly date range of `generate_forecast`: first of the month to
the first of the next month (January of the next year after December). -/
def monthlyRange (y m : Int) : PyDate × PyDate :=
  (⟨y, m, 1⟩, if m = 12 then ⟨y + 1, 1, 1⟩ else ⟨y, m + 1, 1⟩)

/-- The quarterly date range of `generate_forecast`: first of the start
month of the quarter to the first of the month three months later
(January of the next year after Q4). -/
def quarterlyRange (y q : Int) : PyDate × PyDate :=
  let sm := (q - 1) * 3 + 1
  (⟨y, sm, 1⟩, if q = 4 then ⟨y + 1, 1, 1⟩ else ⟨y, sm + 3, 1⟩)

/-- The ORM filter of `generate_forecast` (lines 224-228):
`expected_close__gte=start, expected_close__lt=end, status=Active`
(rows with null `expected_close` never match a date lookup). -/
def genSelect (deals : List OrmDeal) (s e : PyDate) : List OrmDeal :=
  deals.filter (fun d =>
    match d.expected_close with
    | some ec => decide (PyDate.le s ec) && decide (PyDate.lt ec e) &&
        d.status == "Active"
    | none => false)

/-- The date-range computation of `generate_forecast` (lines 203-221):
parse the period string (`YYYY-MM` or `YYYY-Qn`) and build the calendar
bounds. Parse failures and the unhandled `yearly` branch (an
unbound-variable error in the source) return none. -/
def forecastBounds (period forecast_type : String) :
    Option (PyDate × PyDate) :=
  if forecast_type = "monthly" then
    match pySplitOn period "-" with
    | [ys, ms] =>
      match pyToNat ys, pyToNat ms with
      | some y, some m => some (monthlyRange y m)
      | _, _ => none
    | _ => none
  else if forecast_type = "quarterly" then
    match pySplitOn period "-Q" with
    | [ys, qs] =>
      match pyToNat ys, pyToNat qs with
      | some y, some q => some (quarterlyRange y q)
      | _, _ => none
    | _ => none
  else none

/-- `SalesForecast.generate_forecast(period, forecast_type)`: parses the
period string into calendar bounds, selects Active deals closing in the
range, and returns the total, weighted and high-probability pipeline
sums. -/
def generate_forecast (deals : List OrmDeal) (period : String)
    (forecast_type : String) : Option (ℚ × ℚ × ℚ) :=
  (forecastBounds period forecast_type).map (fun se =>
    let ds := genSelect deals se.1 se.2
    ((ds.map (fun d => d.value)).sum,
     (ds.map (fun d => d.value * ((d.probability : ℚ) / 100))).sum,
     ((ds.filter (fun d => d.probability ≥ 70)).map
       (fun d => d.value)).sum))

/-- Modelled from the spec wording: a date lies in calendar month m of
year y. -/
def specInMonth (y m : Int) (dt : PyDate) : Prop :=
  dt.y = y ∧ dt.m = m

/-- Modelled from the spec wording: a date lies in calendar quarter q of
year y. -/
def specInQuarter (y q : Int) (dt : PyDate) : Prop :=
  dt.y = y ∧ (q - 1) * 3 + 1 ≤ dt.m ∧ dt.m ≤ q * 3

/-- A date whose month and day are in range (Python dates always are). -/
def ValidDate (dt : PyDate) : Prop :=
  1 ≤ dt.m ∧ dt.m ≤ 12 ∧ 1 ≤ dt.d ∧ dt.d ≤ 31

/-- The monthly bounds of `generate_forecast` capture exactly the dates
of the calendar month: inclusive start, exclusive end. -/
lemma mem_monthlyRange_iff (y m : Int) (dt : PyDate) (hv : ValidDate dt)
    (h1 : 1 ≤ m) (h2 : m ≤ 12) :
    (PyDate.le (monthlyRange y m).1 dt ∧
      PyDate.lt dt (monthlyRange y m).2) ↔ specInMonth y m dt := by
  obtain ⟨a, b, c, e⟩ := hv
  by_cases hm : m = 12 <;>
    simp only [monthlyRange, hm, if_true, if_false, PyDate.le, PyDate.lt,
      specInMonth, ite_true, ite_false] <;>
    omega

/-- The quarterly bounds of `generate_forecast` capture exactly the
dates of the calendar quarter: inclusive start, exclusive end. -/
lemma mem_quarterlyRange_iff (y q : Int) (dt : PyDate) (hv : ValidDate dt)
    (h1 : 1 ≤ q) (h2 : q ≤ 4) :
    (PyDate.le (quarterlyRange y q).1 dt ∧
      PyDate.lt dt (quarterlyRange y q).2) ↔ specInQuarter y q dt := by
  obtain ⟨a, b, c, e⟩ := hv
  by_cases hq : q = 4 <;>
    simp only [quarterlyRange, hq, PyDate.le, PyDate.lt,
      specInQuarter, ite_true, ite_false] <;>
    omega

/-- The example Firebase deal for the forecast-selection counterexample:
Active, value 500, closing on 2025-01-15 (the date ⟨2025, 1, 15⟩). -/
def exFbQ : FbDeal :=
  { value := 500, probability := 80, status := "Active", stage := "Lead"
    expected_close := "2025-01-15" }

/-- Claim C6 counterexample: with now = 2025-01-01, the quarterly
forecast of `get_forecast_data` for its first period (key 2025-Q1)
selects no deals at all - the deal closing 2025-01-15 lies inside the
Q1 calendar bounds and is Active, yet the string-prefix test against
the key never matches an ISO date - so the reported pipeline is 0, not
the 500 the claimed selection would give. -/
theorem forecast_quarterly_selection_cex :
    get_forecast_data [exFbQ] ⟨2025, 1, 1⟩ 1 "quarterly" =
      [⟨"2025-Q1", 0, 0, 0⟩] ∧
    periodSelected [exFbQ] (periodKeyFor "quarterly" ⟨2025, 1, 1⟩ 0) =
      [] ∧
    specInQuarter 2025 1 ⟨2025, 1, 15⟩ ∧
    exFbQ.status = "Active" ∧ exFbQ.value = 500 := by
  refine ⟨rfl, rfl, ?_, rfl, rfl⟩
  refine ⟨rfl, by norm_num, by norm_num⟩

/-- Claim C6 as amended: the model-level `generate_forecast` does select
exactly the Active deals whose expected close lies within true calendar
month and quarter bounds (inclusive start, exclusive end); the
Firebase-level `get_forecast_data` instead matches `expected_close` by
string prefix of a period key computed from fixed 30, 90 or 365 day
offsets, so its monthly keys can drift past calendar months and its
quarterly keys match no date at all. This theorem proves the
calendar-correct part for `generate_forecast`. -/
theorem generate_forecast_calendar_bounds
    (y m q : Int) (dl : List OrmDeal) (d : OrmDeal) (ec : PyDate)
    (hec : d.expected_close = some ec) (hv : ValidDate ec) :
    (1 ≤ m → m ≤ 12 →
      (d ∈ genSelect dl (monthlyRange y m).1 (monthlyRange y m).2 ↔
        d ∈ dl ∧ d.status = "Active" ∧ specInMonth y m ec)) ∧
    (1 ≤ q → q ≤ 4 →
      (d ∈ genSelect dl (quarterlyRange y q).1 (quarterlyRange y q).2 ↔
        d ∈ dl ∧ d.status = "Active" ∧ specInQuarter y q ec)) := by
  constructor
  · intro h1 h2
    rw [← mem_monthlyRange_iff y m ec hv h1 h2]
    simp [genSelect, List.mem_filter, hec, and_assoc, and_comm,
      and_left_comm]
  · intro h1 h2
    rw [← mem_quarterlyRange_iff y q ec hv h1 h2]
    simp [genSelect, List.mem_filter, hec, and_assoc, and_comm,
      and_left_comm]

/-- The example relational deal closing on 2025-01-15. -/
def exOrmQ : OrmDeal :=
  { value := 500, probability := 80, status := "Active"
    expected_close := some ⟨2025, 1, 15⟩ }

/-- Witness for the amended C6 at a concrete input: the deal closing
2025-01-15 is selected by the January 2025 monthly bounds and by the
Q1 2025 quarterly bounds of `generate_forecast`. -/
theorem generate_forecast_calendar_bounds_witness :
    exOrmQ ∈ genSelect [exOrmQ] (monthlyRange 2025 1).1
      (monthlyRange 2025 1).2 ∧
    exOrmQ ∈ genSelect [exOrmQ] (quarterlyRange 2025 1).1
      (quarterlyRange 2025 1).2 := by
  have h := generate_forecast_calendar_bounds 2025 1 1 [exOrmQ] exOrmQ
    ⟨2025, 1, 15⟩ rfl (by norm_num [ValidDate])
  constructor
  · exact (h.1 (by norm_num) (by norm_num)).mpr
      ⟨List.mem_singleton_self _, rfl, rfl, rfl⟩
  · exact (h.2 (by norm_num) (by norm_num)).mpr
      ⟨List.mem_singleton_self _, rfl, rfl, by norm_num [specInQuarter]⟩

/-- Claim C7: every forecast entry produced by `get_forecast_data` has
total pipeline equal to the sum of the selected deals values, weighted
pipeline equal to the sum of their derived weighted values, and expected
revenue equal to the sum of values over the selected deals with
probability at least 70. -/
theorem forecast_period_totals (deals : List FbDeal) (now : PyDate)
    (period_type : String) (n i : Nat) (h : i < n) :
    (get_forecast_data deals now n period_type)[i]? = some
      { period := periodKeyFor period_type now i
        total_pipeline :=
          ((periodSelected (deals.filter (fun d => d.status == "Active"))
            (periodKeyFor period_type now i)).map (fun d => d.value)).sum
        weighted_pipeline :=
          ((periodSelected (deals.filter (fun d => d.status == "Active"))
            (periodKeyFor period_type now i)).map
              FbDeal.weighted_value).sum
        expected_revenue :=
          (((periodSelected (deals.filter (fun d => d.status == "Active"))
            (periodKeyFor period_type now i)).filter
              (fun d => d.probability ≥ 70)).map
                (fun d => d.value)).sum } := by
  simp only [get_forecast_data, List.getElem?_map, List.getElem?_range, h,
    if_pos, Option.map_some]
  rfl

/-- The spec scenario clock: today is 2025-10-12, so forecast index 1 is
the next month (2025-11). -/
def exForecastNow : PyDate := ⟨2025, 10, 12⟩

/-- The spec scenario deals: values 1000, 2000, 3000 with probabilities
80, 50, 90, all Active and closing next month. -/
def exForecastDeals : List FbDeal :=
  [{ value := 1000, probability := 80, status := "Active", stage := "Lead"
     expected_close := "2025-11-15" },
   { value := 2000, probability := 50, status := "Active", stage := "Lead"
     expected_close := "2025-11-20" },
   { value := 3000, probability := 90, status := "Active", stage := "Lead"
     expected_close := "2025-11-05" }]

set_option maxRecDepth 8000 in
/-- Witness for C7 at the spec scenario: three deals with values 1000,
2000, 3000 and probabilities 80, 50, 90 closing next month give
total 6000, weighted 4500 and expected revenue 4000. -/
theorem forecast_period_totals_witness :
    (get_forecast_data exForecastDeals exForecastNow 6 "monthly")[1]? =
      some ⟨"2025-11", 6000, 4500, 4000⟩ := by
  have h := forecast_period_totals exForecastDeals exForecastNow
    "monthly" 6 1 (by norm_num)
  rw [h]
  have hk : periodKeyFor "monthly" exForecastNow 1 = "2025-11" := by
    decide
  rw [hk]
  have hsel : periodSelected
      (exForecastDeals.filter (fun d => d.status == "Active"))
      "2025-11" = exForecastDeals := rfl
  rw [hsel]
  have hfil : exForecastDeals.filter (fun d => d.probability ≥ 70) =
      [exForecastDeals[0], exForecastDeals[2]] := by
    norm_num [exForecastDeals, List.filter]
  rw [hfil]
  norm_num [exForecastDeals, FbDeal.weighted_value]

/-! ## Division-guarded metrics (core/utils.py calculate_deal_metrics,
analytics/data_processor.py get_dashboard_metrics) -/

/-- Python division: none models the ZeroDivisionError raised on a zero
denominator. -/
def pyDiv (a b : ℚ) : Option ℚ :=
  if b = 0 then none else some (a / b)

/-- `round(x, 2)`: round to two decimals. Python rounds half to even;
this only matters at exact half-cent ties, which no proved statement
touches. -/
def round2 (q : ℚ) : ℚ := ((round (q * 100) : ℤ) : ℚ) / 100

/-- A Firebase customer record (only the status field matters here). -/
structure FbCustomer where
  status : String
  deriving Repr, DecidableEq

/-- A Firebase sales-activity record (only the completed flag matters). -/
structure FbActivity where
  completed : Bool
  deriving Repr, DecidableEq

/-- The metric fields of `calculate_deal_metrics` (core/utils.py 43-72)
that involve division, plus the counts. -/
structure UtilsMetrics where
  total_value : ℚ
  average_value : ℚ
  win_rate : ℚ
  total_deals : Nat
  deals_won : Nat
  deals_lost : Nat
  deriving Repr, DecidableEq

/-- The win-rate expression shared by core/utils.py line 62 and
data_processor.py lines 82-84: won over closed, times 100, guarded to 0
when no deal is closed. -/
def winRateOf (deals : List FbDeal) : Option ℚ :=
  let won := (deals.filter (fun d => d.status == "Won")).length
  let lost := (deals.filter (fun d => d.status == "Lost")).length
  let closed := won + lost
  if closed > 0 then (pyDiv (won : ℚ) (closed : ℚ)).map (· * 100)
  else some 0

/-- The average-value expression shared by core/utils.py line 66 and
data_processor.py line 77: total value over count if the list is
non-empty, else 0. -/
def avgValueOf (deals : List FbDeal) : Option ℚ :=
  if deals ≠ []
  then pyDiv ((deals.map (fun d => d.value)).sum) (deals.length : ℚ)
  else some 0

/-- `calculate_deal_metrics(deals)`: the all-zero record on an empty
list, otherwise totals, the average value, and the win rate over closed
deals guarded to 0 when no deal is closed, rounded to two decimals. -/
def calculate_deal_metrics (deals : List FbDeal) : Option UtilsMetrics :=
  if deals = [] then some ⟨0, 0, 0, 0, 0, 0⟩
  else do
    let win_rate ← winRateOf deals
    let average_value ← avgValueOf deals
    some ⟨(deals.map (fun d => d.value)).sum, average_value,
      round2 win_rate, deals.length,
      (deals.filter (fun d => d.status == "Won")).length,
      (deals.filter (fun d => d.status == "Lost")).length⟩

/-- The division-bearing fields of the dashboard metrics
(data_processor.py 59-93). -/
structure DashMetrics where
  conversion_rate : ℚ
  avg_deal_size : ℚ
  win_rate : ℚ
  completion_rate : ℚ
  deriving Repr, DecidableEq

/-- The customer conversion rate of `get_dashboard_metrics` (lines
59-62): 0 unless there are customers, else active over total, times
100, rounded. -/
def dashConversionRate (customers : List FbCustomer) : Option ℚ :=
  let active :=
    (customers.filter (fun c => c.status == "Active")).length
  if customers.length > 0
  then (pyDiv (active : ℚ) (customers.length : ℚ)).map
    (fun r => round2 (r * 100))
  else some 0

/-- The activity completion rate of `get_dashboard_metrics` (line 93):
completed over total, times 100, rounded, 0 when there are no
activities. -/
def dashCompletionRate (activities : List FbActivity) : Option ℚ :=
  let completed := (activities.filter (fun a => a.completed)).length
  if activities ≠ []
  then (pyDiv (completed : ℚ) (activities.length : ℚ)).map
    (fun r => round2 (r * 100))
  else some 0

/-- The rate computations of `DataProcessor.get_dashboard_metrics`:
customer conversion rate, average deal size, win rate over closed deals
and activity completion rate, each guarded to 0 when its denominator is
0 and rounded to two decimals where the source rounds. -/
def get_dashboard_metrics (customers : List FbCustomer)
    (deals : List FbDeal) (activities : List FbActivity) :
    Option DashMetrics := do
  let conversion_rate ← dashConversionRate customers
  let avg_deal_size ← avgValueOf deals
  let win_rate ← winRateOf deals
  let completion_rate ← dashCompletionRate activities
  some ⟨conversion_rate, avg_deal_size, round2 win_rate,
    completion_rate⟩

/-- The conversion rate never fails and is 0 with no customers. -/
lemma dashConversionRate_some (customers : List FbCustomer) :
    ∃ r, dashConversionRate customers = some r ∧
      (customers = [] → r = 0) := by
  unfold dashConversionRate pyDiv
  by_cases h : customers.length > 0
  · rw [if_pos h, if_neg (by exact_mod_cast Nat.pos_iff_ne_zero.mp h)]
    exact ⟨_, rfl, fun hc => by simp [hc] at h⟩
  · rw [if_neg h]
    exact ⟨0, rfl, fun _ => rfl⟩

/-- The average value never fails and is 0 on an empty list. -/
lemma avgValueOf_some (deals : List FbDeal) :
    ∃ r, avgValueOf deals = some r ∧ (deals = [] → r = 0) := by
  unfold avgValueOf pyDiv
  by_cases h : deals = []
  · rw [if_neg (by simp [h])]
    exact ⟨0, rfl, fun _ => rfl⟩
  · rw [if_pos h,
      if_neg (by exact_mod_cast (by simp [h] : deals.length ≠ 0))]
    exact ⟨_, rfl, fun hc => absurd hc h⟩

/-- The win rate never fails and is 0 when no deal is closed. -/
lemma winRateOf_some (deals : List FbDeal) :
    ∃ r, winRateOf deals = some r ∧
      ((deals.filter (fun d => d.status == "Won")).length +
        (deals.filter (fun d => d.status == "Lost")).length = 0 →
        r = 0) := by
  unfold winRateOf pyDiv
  by_cases h : (deals.filter (fun d => d.status == "Won")).length +
      (deals.filter (fun d => d.status == "Lost")).length > 0
  · rw [if_pos h, if_neg (by exact_mod_cast Nat.pos_iff_ne_zero.mp h)]
    exact ⟨_, rfl, fun hc => by omega⟩
  · rw [if_neg h]
    exact ⟨0, rfl, fun _ => rfl⟩

/-- The completion rate never fails and is 0 with no activities. -/
lemma dashCompletionRate_some (activities : List FbActivity) :
    ∃ r, dashCompletionRate activities = some r ∧
      (activities = [] → r = 0) := by
  unfold dashCompletionRate pyDiv
  by_cases h : activities = []
  · rw [if_neg (by simp [h])]
    exact ⟨0, rfl, fun _ => rfl⟩
  · rw [if_pos h,
      if_neg (by exact_mod_cast (by simp [h] : activities.length ≠ 0))]
    exact ⟨_, rfl, fun hc => absurd hc h⟩

/-- Claim C8: every rate and average computation (win rate, completion
rate, average deal size, conversion rate, in both the dashboard
aggregator and the utils helper) returns exactly 0 when its denominator
is 0, and never fails: the Option result is always some, and each
zero-denominator case yields the field 0. -/
theorem division_guard_zero (customers : List FbCustomer)
    (deals : List FbDeal) (activities : List FbActivity) :
    (∃ dm, get_dashboard_metrics customers deals activities = some dm ∧
      (customers = [] → dm.conversion_rate = 0) ∧
      (deals = [] → dm.avg_deal_size = 0 ∧ dm.win_rate = 0) ∧
      ((deals.filter (fun d => d.status == "Won")).length +
        (deals.filter (fun d => d.status == "Lost")).length = 0 →
        dm.win_rate = 0) ∧
      (activities = [] → dm.completion_rate = 0)) ∧
    (∃ um, calculate_deal_metrics deals = some um ∧
      (deals = [] → um.average_value = 0 ∧ um.win_rate = 0) ∧
      ((deals.filter (fun d => d.status == "Won")).length +
        (deals.filter (fun d => d.status == "Lost")).length = 0 →
        um.win_rate = 0)) := by
  obtain ⟨c, hc, hc0⟩ := dashConversionRate_some customers
  obtain ⟨a, ha, ha0⟩ := avgValueOf_some deals
  obtain ⟨w, hw, hw0⟩ := winRateOf_some deals
  obtain ⟨p, hp, hp0⟩ := dashCompletionRate_some activities
  constructor
  · refine ⟨⟨c, a, round2 w, p⟩, ?_, ?_, ?_, ?_, ?_⟩
    · simp [get_dashboard_metrics, hc, ha, hw, hp]
    · exact fun h => hc0 h
    · exact fun h => ⟨ha0 h, by rw [hw0 (by simp [h]), round2]; norm_num⟩
    · exact fun h => by rw [hw0 h, round2]; norm_num
    · exact fun h => hp0 h
  · by_cases hd : deals = []
    · refine ⟨⟨0, 0, 0, 0, 0, 0⟩, by simp [calculate_deal_metrics, hd],
        fun _ => ⟨rfl, rfl⟩, fun _ => rfl⟩
    · refine ⟨⟨(deals.map (fun d => d.value)).sum, a, round2 w,
        deals.length,
        (deals.filter (fun d => d.status == "Won")).length,
        (deals.filter (fun d => d.status == "Lost")).length⟩, ?_, ?_, ?_⟩
      · simp [calculate_deal_metrics, hd, hw, ha]
      · exact fun h => absurd h hd
      · exact fun h => by rw [hw0 h, round2]; norm_num

/-- Witness for C8 at the all-empty input: every rate is some 0. -/
theorem division_guard_zero_witness :
    ∃ dm, get_dashboard_metrics [] [] [] = some dm ∧
      dm.conversion_rate = 0 ∧ dm.avg_deal_size = 0 ∧
      dm.win_rate = 0 ∧ dm.completion_rate = 0 := by
  obtain ⟨⟨dm, hdm, hc, hd, _, ha⟩, _⟩ := division_guard_zero [] [] []
  exact ⟨dm, hdm, hc rfl, (hd rfl).1, (hd rfl).2, ha rfl⟩

/-! ## Recommendation advisor (sales/pipeline_logic.py 296-355) -/

/-- The deal fields read by `get_deal_recommendations`. Timestamps are
integer day counts. -/
structure RecDeal where
  stage : String
  probability : Int
  expected_close : Option Int
  created_date : Int
  updated_date : Int
  deriving Repr, DecidableEq

/-- The recommendations the advisor can emit, one constructor per
`recommendations.append` site in the source, tagged with the message
type string of that site. -/
inductive Advice where
  | stagnant (days : Int)
  | closingSoon (days : Int)
  | probabilityLow
  | probabilityHigh
  | noRecentActivity
  deriving Repr, DecidableEq

/-- The `expected_probabilities` dict (lines 321-326). -/
def expectedProbRange (stage : String) : Option (Int × Int) :=
  if stage = "Lead" then some (5, 20)
  else if stage = "Qualified" then some (20, 40)
  else if stage = "Proposal" then some (40, 60)
  else if stage = "Negotiation" then some (60, 90)
  else none

/-- `PipelineManager.get_deal_recommendations(deal)`: a stagnancy
warning when more than 14 days have passed since `updated_date`, an
urgent note when the expected close is one to seven days away, an
info or success note when the probability sits outside the expected
band for the stage, and a warning when the deal has no activity in the
last seven days. The deal age (`created_date`) is never consulted. -/
def get_deal_recommendations (d : RecDeal) (activity_dates : List Int)
    (now : Int) : List Advice :=
  let days_in_stage := now - d.updated_date
  let r1 : List Advice :=
    if days_in_stage > 14 then [.stagnant days_in_stage] else []
  let r2 : List Advice :=
    match d.expected_close with
    | some ec =>
      if 0 < ec - now ∧ ec - now ≤ 7 then [.closingSoon (ec - now)]
      else []
    | none => []
  let r3 : List Advice :=
    match expectedProbRange d.stage with
    | some lohi =>
      if d.probability < lohi.1 then [.probabilityLow]
      else if d.probability > lohi.2 then [.probabilityHigh]
      else []
    | none => []
  let r4 : List Advice :=
    if (activity_dates.filter (fun a => a ≥ now - 7)).length = 0
    then [.noRecentActivity] else []
  r1 ++ r2 ++ r3 ++ r4

/-- A deal created 40 days ago (day 60, now day 100), still in Lead,
updated yesterday, probability inside the expected Lead band, no
expected close. -/
def exStaleLead : RecDeal :=
  { stage := "Lead", probability := 10, expected_close := none
    created_date := 60, updated_date := 99 }

/-- Claim C9 counterexample: the 40-day-old deal still in stage Lead,
meeting no other rule conditions (one activity yesterday), receives no
recommendations at all - the advisor has no stale-lead rule, so the
claimed info-severity stale-lead recommendation is never produced. -/
theorem stale_lead_rule_absent_cex :
    get_deal_recommendations exStaleLead [99] 100 = [] ∧
    100 - exStaleLead.created_date = 40 ∧
    exStaleLead.stage = "Lead" := by
  refine ⟨rfl, by norm_num [exStaleLead], rfl⟩

/-- Claim C9 as amended: the advisor has no rule keyed on deal age
(`created_date` is never read); a deal in stage Lead of any age receives
no recommendation whenever it was updated within 14 days, has no
expected close date, has probability within the expected Lead band of
5 to 20, and has an activity within the last 7 days. Staleness is
instead flagged through `updated_date` alone. -/
theorem recommendations_no_stale_lead_rule
    (d : RecDeal) (activity_dates : List Int) (now : Int)
    (hupd : now - d.updated_date ≤ 14)
    (hec : d.expected_close = none)
    (hstage : d.stage = "Lead")
    (hplo : 5 ≤ d.probability) (hphi : d.probability ≤ 20)
    (hact : ∃ a ∈ activity_dates, now - 7 ≤ a) :
    get_deal_recommendations d activity_dates now = [] := by
  obtain ⟨a, ha, hage⟩ := hact
  have hmem : a ∈ activity_dates.filter (fun x => x ≥ now - 7) :=
    List.mem_filter.mpr ⟨ha, by simpa using hage⟩
  have h4 : ¬ ((activity_dates.filter
      (fun x => x ≥ now - 7)).length = 0) := by
    intro h0
    rw [List.length_eq_zero] at h0
    rw [h0] at hmem
    exact List.not_mem_nil a hmem
  have h14 : ¬ (now - d.updated_date > 14) := by omega
  have hl : ¬ (d.probability < 5) := by omega
  have hh : ¬ (d.probability > 20) := by omega
  simp [get_deal_recommendations, hec, hstage, expectedProbRange,
    h14, h4, hl, hh]
  exact ⟨a, ha, by omega⟩

/-- Witness for the amended C9 at the concrete stale deal: it receives
no recommendations. -/
theorem recommendations_no_stale_lead_rule_witness :
    get_deal_recommendations exStaleLead [99] 100 = [] := by
  exact recommendations_no_stale_lead_rule exStaleLead [99] 100
    (by norm_num [exStaleLead]) rfl rfl
    (by norm_num [exStaleLead]) (by norm_num [exStaleLead])
    ⟨99, List.mem_singleton_self 99, by norm_num⟩

end CRM
